import Mathlib

/-!
Verification of the tank-valve simulator core.

Shallow embedding of the simulation core of the repository:
the `Tank` model, the history buffer, the simulation tick, the reset
action (from streamlit-tank-valve.py), and the valve-overlay timeout
state machine (from TankValveSim.py). Machine floats are modelled as
rationals; wall-clock timestamps are rationals fed in as inputs.
-/

namespace TankSim

/-- The tank: cross-sectional area `A` and maximum height `H_max`.
The source constructor (`Tank.__init__`) stores the geometry with no
validation, so construction is a total function. -/
structure Tank where
  A : ℚ
  H_max : ℚ

/-- `Tank.__init__(area, height)`: stores the fields, performs no check. -/
def Tank.make (area height : ℚ) : Tank :=
  { A := area, H_max := height }

/-- `Tank.V_max`: `self.A * self.H_max`. -/
def Tank.V_max (t : Tank) : ℚ := t.A * t.H_max

/-- `Tank.step(volume, dt, Q_in, Q_out)`:
`dV = (Q_in - Q_out) * dt; return np.clip(volume + dV, 0, self.V_max())`.
`np.clip(x, lo, hi)` is `minimum(hi, maximum(x, lo))`. -/
def Tank.step (t : Tank) (volume dt Q_in Q_out : ℚ) : ℚ :=
  min t.V_max (max (volume + (Q_in - Q_out) * dt) 0)

/-- `Tank.level(volume)`: `min(1.0, max(0.0, volume / self.V_max()))`.
In the source a zero `V_max` raises ZeroDivisionError; here division by
zero yields the junk value 0, and every theorem that uses `level` assumes
positive geometry. -/
def Tank.level (t : Tank) (volume : ℚ) : ℚ :=
  min 1 (max 0 (volume / t.V_max))

/-- `Tank.is_overflow(volume)`: `volume >= self.V_max() - 1e-6`. -/
def Tank.is_overflow (t : Tank) (volume : ℚ) : Bool :=
  decide (t.V_max - 1/1000000 ≤ volume)

/-- The time delta computed by the driver on a non-paused tick:
`dt = min(current_time - st.session_state.last_update, 0.1)`.
Both variants compute exactly this (there is no lower clamp). -/
def dtUsed (current_time last_update : ℚ) : ℚ :=
  min (current_time - last_update) (1/10)

/-- One history sample: `{time, level, Q_in, Q_out}` as appended by the
driver. The timestamp is the tick time. -/
structure HistorySample where
  time : ℚ
  level : ℚ
  Q_in : ℚ
  Q_out : ℚ

/-- The history append of the driver:
`history.append(s); if len(history) > 100: history.pop(0)`.
`pop(0)` removes the element at index 0, i.e. takes the tail. -/
def historyAppend {α : Type} (h : List α) (s : α) : List α :=
  if (h ++ [s]).length > 100 then (h ++ [s]).tail else h ++ [s]

/-- The session state of streamlit-tank-valve.py: the fields initialized
at session start plus the two flow setpoints stored by the sliders.
The tank height is the literal `1.0` at every construction site and is
not part of the session state. -/
structure SessionState where
  tank_volume : ℚ
  inlet_open : Bool
  valve_position : ℚ
  history : List HistorySample
  last_update : ℚ
  paused : Bool
  tank_area : ℚ
  inlet_flow_value : ℚ
  outlet_flow_value : ℚ

/-- The simulation update block of streamlit-tank-valve.py (lines 83-110),
run once per refresh with the current wall-clock time `now`:
skipped entirely when paused; otherwise computes the clamped `dt`,
derives the flows, steps the tank built from the session area (height 1.0),
stores the new volume and timestamp, and appends a history sample. -/
def simUpdate (s : SessionState) (now : ℚ) : SessionState :=
  if s.paused then s
  else
    let dt := dtUsed now s.last_update
    let Q_in := if s.inlet_open then s.inlet_flow_value else 0
    let Q_out := s.outlet_flow_value
    let tank : Tank := Tank.make s.tank_area 1
    let v2 := tank.step s.tank_volume dt Q_in Q_out
    { s with
        tank_volume := v2,
        last_update := now,
        history := historyAppend s.history ⟨now, tank.level v2 * 100, Q_in, Q_out⟩ }

/-- The Reset button handler: `tank_volume = 0.0; inlet_open = False;
history = []`. No other field is touched. -/
def resetAction (s : SessionState) : SessionState :=
  { s with tank_volume := 0, inlet_open := false, history := [] }

/-- The valve-overlay state of TankValveSim.py: `show_valve_modal` and
`modal_opened_at` (None until first opened). -/
structure ModalState where
  show_valve_modal : Bool
  modal_opened_at : Option ℚ

/-- The open-overlay action (TankValveSim.py lines 200-202):
`show_valve_modal = True; modal_opened_at = time.time()`. -/
def openOverlay (now : ℚ) : ModalState :=
  { show_valve_modal := true, modal_opened_at := some now }

/-- Truthiness-gated timeout test of TankValveSim.py line 280:
`st.session_state.modal_opened_at and (time.time() - st.session_state.modal_opened_at) > 5`.
A Python value `None` is falsy, and so is the float `0.0`; otherwise the
comparison is evaluated. -/
def modalTimeoutHit (modal_opened_at : Option ℚ) (now : ℚ) : Bool :=
  match modal_opened_at with
  | none => false
  | some t => if t = 0 then false else decide (now - t > 5)

/-- The per-tick overlay timeout check (TankValveSim.py lines 278-282):
when the overlay is shown and the timeout test fires, `show_valve_modal`
is set to False; `modal_opened_at` is not cleared. -/
def modalTick (m : ModalState) (now : ℚ) : ModalState :=
  if m.show_valve_modal && modalTimeoutHit m.modal_opened_at now then
    { m with show_valve_modal := false }
  else m

/-- A concrete running session whose `last_update` lies in the future of
the tick time: wall-clock skew of one second. -/
def skewState : SessionState :=
  { tank_volume := 1/2, inlet_open := true, valve_position := 0,
    history := [], last_update := 10, paused := false, tank_area := 6/5,
    inlet_flow_value := 4/5, outlet_flow_value := 0 }

/-- A concrete non-paused session used as a witness input. -/
def runningState : SessionState :=
  { tank_volume := 0, inlet_open := true, valve_position := 0,
    history := [], last_update := 0, paused := false, tank_area := 6/5,
    inlet_flow_value := 4/5, outlet_flow_value := 7/20 }

theorem historyAppend_length_le {α : Type} (h : List α) (s : α)
    (hl : h.length ≤ 100) : (historyAppend h s).length ≤ 100 := by
  unfold historyAppend
  by_cases hc : (h ++ [s]).length > 100
  · rw [if_pos hc]
    simp only [List.length_tail, List.length_append, List.length_singleton]
    omega
  · rw [if_neg hc]
    simp only [List.length_append, List.length_singleton] at hc ⊢
    omega

theorem foldl_historyAppend_le {α : Type} (l : List α) (h : List α)
    (hl : h.length ≤ 100) : (l.foldl historyAppend h).length ≤ 100 := by
  induction l generalizing h with
  | nil => simpa using hl
  | cons a l ih => exact ih _ (historyAppend_length_le h a hl)

theorem historyAppend_full {α : Type} (h : List α) (s : α)
    (hl : h.length = 100) : historyAppend h s = h.tail ++ [s] := by
  unfold historyAppend
  rw [if_pos (by simp [hl])]
  cases h with
  | nil => simp at hl
  | cons a t => simp

theorem level_mul_vmax (t : Tank) (w : ℚ) (h0 : 0 ≤ w) (hM : w ≤ t.V_max)
    (hV : 0 < t.V_max) : t.level w * t.V_max = w := by
  unfold Tank.level
  rw [max_eq_right (div_nonneg h0 hV.le), min_eq_right ((div_le_one hV).mpr hM),
    div_mul_cancel₀ w hV.ne']

theorem modalTick_keep (t0 now : ℚ) (h : now - t0 ≤ 49/10) :
    modalTick ⟨true, some t0⟩ now = ⟨true, some t0⟩ := by
  have hno : ¬ (now - t0 > 5) := by linarith
  unfold modalTick modalTimeoutHit
  by_cases ht : t0 = 0
  · simp [ht]
  · simp [ht, hno]

/-- Claim C1: for every volume in [0, maxVolume], nonnegative flows and
dt in [0, 0.1], the stepped volume stays within [0, maxVolume]. -/
theorem step_bounds (t : Tank) (volume dt Q_in Q_out : ℚ)
    (hv0 : 0 ≤ volume) (hvM : volume ≤ t.V_max)
    (hqi : 0 ≤ Q_in) (hqo : 0 ≤ Q_out)
    (hdt0 : 0 ≤ dt) (hdt1 : dt ≤ 1/10) :
    0 ≤ t.step volume dt Q_in Q_out ∧ t.step volume dt Q_in Q_out ≤ t.V_max := by
  unfold Tank.step
  exact ⟨le_min (le_trans hv0 hvM) (le_max_right _ _), min_le_left _ _⟩

/-- Witness for C1 at the default tank and flows. -/
theorem step_bounds_witness :
    0 ≤ (Tank.make (6/5) 1).step (1/2) (1/20) (4/5) (7/20) ∧
    (Tank.make (6/5) 1).step (1/2) (1/20) (4/5) (7/20) ≤ (Tank.make (6/5) 1).V_max :=
  step_bounds (Tank.make (6/5) 1) (1/2) (1/20) (4/5) (7/20)
    (by norm_num) (by norm_num [Tank.make, Tank.V_max]) (by norm_num)
    (by norm_num) (by norm_num) (by norm_num)

/-- Claim C2, evaluated at the failing input: with `last_update = 10` and
tick time `now = 9` (clock skew of one second), the driver computes
`dt = -1`, not `0`, and the negative dt reaches the integration step:
the skewed tick drains the tank from volume 1/2 down to 0 even though the
outlet flow is 0, where a dt of 0 would have left the volume at 1/2. -/
theorem dt_negative_propagated :
    dtUsed 9 10 = -1 ∧ dtUsed 9 10 < 0 ∧
    (simUpdate skewState 9).tank_volume = 0 ∧ skewState.tank_volume = 1/2 := by
  refine ⟨by norm_num [dtUsed], by norm_num [dtUsed], ?_, rfl⟩
  norm_num [simUpdate, skewState, dtUsed, Tank.make, Tank.step, Tank.V_max]

/-- Claim C3, evaluated at the failing input: the constructor accepts a
zero (and a negative) cross-sectional area without any error, producing a
tank whose maximal volume is 0 (on which `level` divides by zero). -/
theorem zero_geometry_accepted :
    (Tank.make 0 1).A = 0 ∧ (Tank.make 0 1).V_max = 0 ∧
    (Tank.make (-1) 1).A = -1 := by
  refine ⟨rfl, ?_, rfl⟩
  norm_num [Tank.make, Tank.V_max]

/-- Claim C4: starting from an empty buffer, any sequence of appends
leaves at most 100 samples, and an append to a full buffer of 100 drops
exactly the oldest sample and keeps the insertion order of the rest. -/
theorem history_bounded_fifo :
    (∀ l : List HistorySample,
      (l.foldl historyAppend ([] : List HistorySample)).length ≤ 100) ∧
    (∀ (h : List HistorySample) (s : HistorySample), h.length = 100 →
      historyAppend h s = h.tail ++ [s]) :=
  ⟨fun l => foldl_historyAppend_le l [] (by simp),
   fun h s hl => historyAppend_full h s hl⟩

/-- Witness for C4: appending to a concrete full buffer of 100 samples. -/
theorem history_bounded_fifo_witness :
    historyAppend (List.replicate 100 (⟨0, 0, 0, 0⟩ : HistorySample)) ⟨1, 1, 1, 1⟩ =
      (List.replicate 100 (⟨0, 0, 0, 0⟩ : HistorySample)).tail ++ [⟨1, 1, 1, 1⟩] :=
  history_bounded_fifo.2 (List.replicate 100 ⟨0, 0, 0, 0⟩) ⟨1, 1, 1, 1⟩ (by simp)

/-- Claim C5: from any session state, paused or running, reset yields
volume 0, a closed inlet and an empty history. -/
theorem reset_clears_state (s : SessionState) :
    (resetAction s).tank_volume = 0 ∧ (resetAction s).inlet_open = false ∧
    (resetAction s).history = [] :=
  ⟨rfl, rfl, rfl⟩

/-- Counterexample to claim C6 as stated: at volume 2 (above the maximal
volume 6/5 of the default tank) a step with dt = 0 clamps the volume to
6/5, so it does not return the volume unchanged for every volume. -/
theorem step_zero_dt_ce :
    (Tank.make (6/5) 1).step 2 0 3 7 ≠ 2 := by
  norm_num [Tank.make, Tank.step, Tank.V_max]

/-- Claim C6 amended: for every volume already within [0, maxVolume],
a step with dt = 0 leaves the volume unchanged for any flows. -/
theorem step_zero_dt (t : Tank) (v Q_in Q_out : ℚ)
    (h0 : 0 ≤ v) (hM : v ≤ t.V_max) :
    t.step v 0 Q_in Q_out = v := by
  unfold Tank.step
  rw [mul_zero, add_zero, max_eq_left h0, min_eq_right hM]

/-- Witness for amended C6 at the default tank. -/
theorem step_zero_dt_witness : (Tank.make (6/5) 1).step (1/2) 0 3 7 = 1/2 :=
  step_zero_dt (Tank.make (6/5) 1) (1/2) 3 7 (by norm_num)
    (by norm_num [Tank.make, Tank.V_max])

/-- Claim C7: starting from an empty tank with zero outlet flow and a
fixed positive inlet flow, `level(step(0, dt, Q_in, 0)) * V_max` is
monotone in dt (for a tank with positive geometry). -/
theorem fill_monotone (t : Tank) (Q_in dt₁ dt₂ : ℚ)
    (hA : 0 < t.A) (hH : 0 < t.H_max) (hq : 0 < Q_in) (hdt : dt₁ ≤ dt₂) :
    t.level (t.step 0 dt₁ Q_in 0) * t.V_max ≤
      t.level (t.step 0 dt₂ Q_in 0) * t.V_max := by
  have hV : 0 < t.V_max := mul_pos hA hH
  have key : ∀ dt : ℚ, t.level (t.step 0 dt Q_in 0) * t.V_max
      = min t.V_max (max (Q_in * dt) 0) := by
    intro dt
    have harg : 0 + (Q_in - 0) * dt = Q_in * dt := by ring
    have hstep : t.step 0 dt Q_in 0 = min t.V_max (max (Q_in * dt) 0) := by
      unfold Tank.step
      rw [harg]
    rw [hstep]
    exact level_mul_vmax t _ (le_min hV.le (le_max_right _ _)) (min_le_left _ _) hV
  rw [key dt₁, key dt₂]
  exact min_le_min (le_refl _)
    (max_le_max (mul_le_mul_of_nonneg_left hdt hq.le) (le_refl 0))

/-- Witness for C7 at the default tank and inlet flow. -/
theorem fill_monotone_witness :
    (Tank.make (6/5) 1).level ((Tank.make (6/5) 1).step 0 (1/20) (4/5) 0) *
        (Tank.make (6/5) 1).V_max ≤
      (Tank.make (6/5) 1).level ((Tank.make (6/5) 1).step 0 (1/10) (4/5) 0) *
        (Tank.make (6/5) 1).V_max :=
  fill_monotone (Tank.make (6/5) 1) (4/5) (1/20) (1/10)
    (by norm_num [Tank.make]) (by norm_num [Tank.make]) (by norm_num) (by norm_num)

/-- Claim C8: overflow holds exactly when the volume is at least
maxVolume - 1e-6, and is false at maxVolume - 0.01 for maxVolume = 1.2. -/
theorem is_overflow_spec :
    (∀ (t : Tank) (v : ℚ), t.is_overflow v = true ↔ t.V_max - 1/1000000 ≤ v) ∧
    (Tank.make (6/5) 1).is_overflow (6/5 - 1/100) = false := by
  constructor
  · intro t v
    simp [Tank.is_overflow]
  · norm_num [Tank.is_overflow, Tank.make, Tank.V_max]

/-- Counterexample to claim C9 as stated: an overlay opened at wall-clock
time 0 is never auto-dismissed, because the truthiness test on the
opened-at timestamp treats the float 0.0 like None: at tick time 10
(10 seconds after opening, well past the 5-second timeout) the overlay is
still shown. -/
theorem overlay_timeout_ce :
    (modalTick (openOverlay 0) 10).show_valve_modal = true := by
  simp [modalTick, openOverlay, modalTimeoutHit]

/-- Claim C9 amended: for an overlay opened at any nonzero time t0, every
sequence of ticks all within 4.9 seconds of t0 leaves the overlay open
and unchanged, and a tick more than 5 seconds after t0 closes it. -/
theorem overlay_timeout (t0 : ℚ) (ht0 : t0 ≠ 0) :
    (∀ ticks : List ℚ, (∀ now ∈ ticks, now - t0 ≤ 49/10) →
      List.foldl modalTick (openOverlay t0) ticks = openOverlay t0) ∧
    (∀ now : ℚ, now - t0 > 5 →
      (modalTick (openOverlay t0) now).show_valve_modal = false) := by
  constructor
  · intro ticks
    induction ticks with
    | nil => intro _; rfl
    | cons a l ih =>
      intro hall
      have ha := hall a (List.mem_cons_self a l)
      have hl : ∀ now ∈ l, now - t0 ≤ 49/10 :=
        fun x hx => hall x (List.mem_cons_of_mem a hx)
      have hopen : openOverlay t0 = (⟨true, some t0⟩ : ModalState) := rfl
      simp only [List.foldl_cons, hopen, modalTick_keep t0 a ha]
      exact ih hl
  · intro now h5
    have hhit : modalTimeoutHit (some t0) now = true := by
      simp [modalTimeoutHit, ht0, h5]
    simp [modalTick, openOverlay, hhit]

/-- Witness for amended C9 at a concrete opening time and tick times. -/
theorem overlay_timeout_witness :
    (modalTick (openOverlay 100) 106).show_valve_modal = false :=
  (overlay_timeout 100 (by norm_num)).2 106 (by norm_num)

/-- Claim C10: a non-paused tick leaves the inlet flag, the paused flag,
the valve position, both flow setpoints and the tank area unchanged
(the tank height is a literal constant outside the session state). -/
theorem sim_update_frame (s : SessionState) (now : ℚ) (hp : s.paused = false) :
    (simUpdate s now).inlet_open = s.inlet_open ∧
    (simUpdate s now).paused = s.paused ∧
    (simUpdate s now).valve_position = s.valve_position ∧
    (simUpdate s now).inlet_flow_value = s.inlet_flow_value ∧
    (simUpdate s now).outlet_flow_value = s.outlet_flow_value ∧
    (simUpdate s now).tank_area = s.tank_area := by
  simp [simUpdate, hp]

/-- Witness for C10 at a concrete running state. -/
theorem sim_update_frame_witness :
    (simUpdate runningState 1).inlet_open = runningState.inlet_open ∧
    (simUpdate runningState 1).paused = runningState.paused ∧
    (simUpdate runningState 1).valve_position = runningState.valve_position ∧
    (simUpdate runningState 1).inlet_flow_value = runningState.inlet_flow_value ∧
    (simUpdate runningState 1).outlet_flow_value = runningState.outlet_flow_value ∧
    (simUpdate runningState 1).tank_area = runningState.tank_area :=
  sim_update_frame runningState 1 rfl

end TankSim
